import Mathlib

/-!
Verification of the quality-evaluation engine of INFRA-KB-QUALITY-CHECKER
(src/scripts/evaluation_metrics.py and src/scripts/check_kb_quality.py).

Modelling conventions of the shallow embedding:
* Python strings are `List Char`; Python floats are idealised as `ℚ`.
* The language-model judge is external: each scorer takes the judge's raw
  reply text (the `response['message']['content']` of the `ollama.chat`
  call) as a parameter.  Everything after that call is embedded faithfully.
* Python code that can raise returns `Except`; a `round(x, 3)` is `round3`.
-/

namespace KBQC

/-- Python's `round(x, 3)` on the rational idealisation: scale by 1000,
round to the nearest integer, scale back. -/
def round3 (q : ℚ) : ℚ := ((round (q * 1000) : ℤ) : ℚ) / 1000

/-- Whitespace test used to model Python's `str.strip()` and `\s`. -/
def isWS (c : Char) : Bool := c.isWhitespace

/-- Python `str.strip()`: drop whitespace from both ends. -/
def pyStrip (l : List Char) : List Char :=
  ((l.dropWhile isWS).reverse.dropWhile isWS).reverse

/-- Python `str.upper()` (ASCII case mapping suffices for the tokens the
scorers compare against). -/
def pyUpper (l : List Char) : List Char := l.map Char.toUpper

/-- Number of maximal runs of decimal digits, i.e. `len(re.findall(r'\d+', s))`
(evaluation_metrics.py lines 44-45).  `prev` records whether the previous
character was a digit. -/
def countRuns : Bool → List Char → ℕ
  | _, [] => 0
  | prev, c :: rest =>
      if c.isDigit then (if prev then 0 else 1) + countRuns true rest
      else countRuns false rest

/-- `len(re.findall(r'\d+', answer))`. -/
def countNumbers (l : List Char) : ℕ := countRuns false l

/-- Python `text.split('.')`: splitting on every `'.'` yields one more
segment than there are dots. -/
def splitOnDot : List Char → List (List Char)
  | [] => [[]]
  | c :: t =>
      if c = '.' then [] :: splitOnDot t
      else
        match splitOnDot t with
        | [] => [[c]]
        | h :: r => (c :: h) :: r

/-- `len([s for s in doc['text'].split('.') if s.strip()])`
(evaluation_metrics.py line 35): segments that are non-empty after strip. -/
def sentenceCount (doc : List Char) : ℕ :=
  (splitOnDot doc).countP (fun s => !(pyStrip s).isEmpty)

/-- `sum([... for doc in retrieved_docs])` (evaluation_metrics.py lines 35-36). -/
def totalSentences (docs : List (List Char)) : ℕ :=
  (docs.map sentenceCount).sum

/-- The `relevant_count` branch of `calculate_context_relevancy`
(evaluation_metrics.py lines 39-45), applied to the stripped judge reply. -/
def relevantCount (content : List Char) : ℕ :=
  if pyUpper (pyStrip content) = "NONE".toList then 0
  else countNumbers (pyStrip content)

/-- `calculate_context_relevancy` (evaluation_metrics.py lines 6-51) after the
judge call: `content` is the judge's raw reply, `docs` the retrieved texts. -/
def calculate_context_relevancy (content : List Char) (docs : List (List Char)) : ℚ :=
  if totalSentences docs = 0 then 0
  else round3 (min ((relevantCount content : ℚ) / (totalSentences docs : ℚ)) 1)

/-- The weighted overall score of `check_question_with_metrics`
(check_kb_quality.py lines 126-131 and the `round(overall_score, 3)` at
line 142). -/
def overall_score (a b c d : ℚ) : ℚ :=
  round3 (a * 0.25 + b * 0.35 + c * 0.20 + d * 0.20)

/-- The faults a scorer can raise.  `valueError` models Python's
`ValueError` from `float(...)`. -/
inductive PyFault
  | valueError
deriving DecidableEq

/-- Character class `[\d.]` of the score-extraction patterns. -/
def isDigitDot (c : Char) : Bool := c.isDigit || c = '.'

/-- Match a literal `label` at the front of `s`, returning the remainder. -/
def dropLabel : List Char → List Char → Option (List Char)
  | [], s => some s
  | _ :: _, [] => none
  | c :: ls, d :: s => if c = d then dropLabel ls s else none

/-- After the label, `\s*([\d.]+)`: skip whitespace, take the maximal run of
digits and dots; the pattern needs at least one such character. -/
def scoreToken (s : List Char) : Option (List Char) :=
  let tok := (s.dropWhile isWS).takeWhile isDigitDot
  if tok.isEmpty then none else some tok

/-- `re.search(r'LABEL\s*([\d.]+)', s)`: leftmost match.  When the label
occurs but no `[\d.]` character follows, the scan resumes one position on,
exactly as `re.search` does. -/
def reSearchScore (label : List Char) : List Char → Option (List Char)
  | [] => (dropLabel label []).bind scoreToken
  | c :: rest =>
      match (dropLabel label (c :: rest)).bind scoreToken with
      | some tok => some tok
      | none => reSearchScore label rest

/-- Value of a run of decimal digits. -/
def digitsToNat (l : List Char) : ℕ :=
  l.foldl (fun n c => 10 * n + (c.toNat - 48)) 0

/-- Python `float(tok)` for a token drawn from `[\d.]+`: it succeeds exactly
when the token has at most one dot and at least one digit (`float(".")`,
`float("..")`, `float("1.2.3")` all raise `ValueError`). -/
def pyFloatOfToken (tok : List Char) : Option ℚ :=
  if tok.count '.' ≤ 1 ∧ tok.any Char.isDigit then
    let ip := tok.takeWhile (fun c => c ≠ '.')
    let fp := (tok.dropWhile (fun c => c ≠ '.')).drop 1
    some ((digitsToNat ip : ℚ) + (digitsToNat fp : ℚ) / (10 : ℚ) ^ fp.length)
  else none

/-- `calculate_answer_completeness` (evaluation_metrics.py lines 54-97) after
the judge call: extract the float after `COMPLETENESS_SCORE:`; no match
defaults to 0.5; a matched token `float()` cannot read raises `ValueError`.
The returned score is `round(score, 3)`. -/
def calculate_answer_completeness (answer : List Char) : Except PyFault ℚ :=
  match reSearchScore "COMPLETENESS_SCORE:".toList answer with
  | none => Except.ok (round3 (1 / 2))
  | some tok =>
      match pyFloatOfToken tok with
      | none => Except.error PyFault.valueError
      | some v => Except.ok (round3 v)

/-- `calculate_faithfulness` (evaluation_metrics.py lines 100-140) after the
judge call: same extraction with label `FAITHFULNESS_SCORE:` and default 0.8. -/
def calculate_faithfulness (answer : List Char) : Except PyFault ℚ :=
  match reSearchScore "FAITHFULNESS_SCORE:".toList answer with
  | none => Except.ok (round3 (4 / 5))
  | some tok =>
      match pyFloatOfToken tok with
      | none => Except.error PyFault.valueError
      | some v => Except.ok (round3 v)

deriving instance DecidableEq for Except

/-- Python's substring test `needle in hay` on character lists. -/
def hasInfix : List Char → List Char → Bool
  | [], needle => needle.isEmpty
  | c :: t, needle => needle.isPrefixOf (c :: t) || hasInfix t needle

/-- The per-item classification of `calculate_precision_at_k`
(evaluation_metrics.py lines 169-170): the judge reply is stripped and
uppercased, and the item counts as relevant iff the result contains
`"RELEVANT"` and does not contain `"NOT_RELEVANT"`. -/
def is_relevant (resp : List Char) : Bool :=
  hasInfix (pyUpper (pyStrip resp)) "RELEVANT".toList &&
    !(hasInfix (pyUpper (pyStrip resp)) "NOT_RELEVANT".toList)

/-- `calculate_precision_at_k` (evaluation_metrics.py lines 143-186) after the
judge calls: `docs` are the retrieved texts in similarity order, `judge`
maps a document's text to the judge's reply for it (one call per document of
`retrieved_docs[:k]`), and the returned value is the `precision_score`,
`round(relevant_count / k, 3)` — the denominator is the configured `k`.
(Python raises `ZeroDivisionError` at `k = 0`; the scorer is only invoked
with its default `k = 3`, and the theorems below restrict to `1 ≤ k`.) -/
def calculate_precision_at_k (docs : List (List Char))
    (judge : List Char → List Char) (k : ℕ) : ℚ :=
  round3 (((((docs.take k).map (fun d => is_relevant (judge d))).countP id : ℕ) : ℚ) / (k : ℚ))

/-- One `QuestionEvaluation` record of check_kb_quality.py: the fields of the
result dict (lines 137-144) that the summary report reads. -/
structure QuestionEvaluation where
  question : List Char
  context_relevancy : ℚ
  answer_completeness : ℚ
  faithfulness : ℚ
  precision_at_3 : ℚ
  overall_score : ℚ
deriving DecidableEq

/-- The failures `generate_summary_report` can produce.  The code only ever
raises Python's `ZeroDivisionError` (the averages at check_kb_quality.py
lines 168-172 divide by `len(all_results)`); `emptyBatch` is the error the
spec names, carried in the type so that the spec's statement about it can be
expressed — no code path produces it. -/
inductive BatchError
  | emptyBatch
  | zeroDivisionError
deriving DecidableEq

/-- Stable ascending comparison used to model Python's
`sorted(all_results, key=lambda x: x['overall_score'])` at
check_kb_quality.py line 184: Python's sort is stable, which is exactly
sorting index-decorated records by the key and, on equal keys, by original
position. -/
def scoreIdxLe (a b : ℕ × QuestionEvaluation) : Prop :=
  a.2.overall_score < b.2.overall_score ∨
    (a.2.overall_score = b.2.overall_score ∧ a.1 ≤ b.1)

instance : DecidableRel scoreIdxLe := fun a b => by
  unfold scoreIdxLe; infer_instance

instance : IsTotal (ℕ × QuestionEvaluation) scoreIdxLe where
  total a b := by
    unfold scoreIdxLe
    rcases lt_trichotomy a.2.overall_score b.2.overall_score with h | h | h
    · exact Or.inl (Or.inl h)
    · rcases Nat.le_total a.1 b.1 with h1 | h1
      · exact Or.inl (Or.inr ⟨h, h1⟩)
      · exact Or.inr (Or.inr ⟨h.symm, h1⟩)
    · exact Or.inr (Or.inl h)

instance : IsTrans (ℕ × QuestionEvaluation) scoreIdxLe where
  trans a b c hab hbc := by
    unfold scoreIdxLe at *
    rcases hab with hab | ⟨hab, hab1⟩
    · rcases hbc with hbc | ⟨hbc, _⟩
      · exact Or.inl (hab.trans hbc)
      · exact Or.inl (hbc ▸ hab)
    · rcases hbc with hbc | ⟨hbc, hbc1⟩
      · exact Or.inl (hab ▸ hbc)
      · exact Or.inr ⟨hab.trans hbc, hab1.trans hbc1⟩

/-- `sorted(all_results, key=lambda x: x['overall_score'])`
(check_kb_quality.py line 184), modelled as a stable ascending sort. -/
def sortByOverall (l : List QuestionEvaluation) : List QuestionEvaluation :=
  ((l.enum).insertionSort scoreIdxLe).map Prod.snd

/-- `sorted_results[:3]`, the list behind both the printed "needs most
improvement" items and the summary's `worst_questions`
(check_kb_quality.py lines 185 and 199-202). -/
def worst_questions (l : List QuestionEvaluation) : List QuestionEvaluation :=
  (sortByOverall l).take 3

/-- The summary dict of `generate_summary_report`
(check_kb_quality.py lines 190-203). -/
structure SessionSummary where
  total_questions : ℕ
  avg_context_relevancy : ℚ
  avg_answer_completeness : ℚ
  avg_faithfulness : ℚ
  avg_precision_at_3 : ℚ
  avg_overall_score : ℚ
  worst : List (List Char × ℚ)
deriving DecidableEq

/-- `generate_summary_report` (check_kb_quality.py lines 159-203).  All five
averages divide by `total_questions = len(all_results)`; the first such
division raises `ZeroDivisionError` when the list is empty, so the whole call
is modelled as failing with `zeroDivisionError` exactly in that case. -/
def generate_summary_report (l : List QuestionEvaluation) :
    Except BatchError SessionSummary :=
  if ((l.length : ℚ)) = 0 then Except.error BatchError.zeroDivisionError
  else
    Except.ok
      { total_questions := l.length
        avg_context_relevancy :=
          round3 ((l.map (fun r => r.context_relevancy)).sum / (l.length : ℚ))
        avg_answer_completeness :=
          round3 ((l.map (fun r => r.answer_completeness)).sum / (l.length : ℚ))
        avg_faithfulness :=
          round3 ((l.map (fun r => r.faithfulness)).sum / (l.length : ℚ))
        avg_precision_at_3 :=
          round3 ((l.map (fun r => r.precision_at_3)).sum / (l.length : ℚ))
        avg_overall_score :=
          round3 ((l.map (fun r => r.overall_score)).sum / (l.length : ℚ))
        worst := (worst_questions l).map (fun r => (r.question, r.overall_score)) }

/-- The judge-unavailable fault of §7 of the spec: the `ollama.chat` call
errors or times out, surfacing as a Python exception. -/
inductive JudgeError
  | judgeUnavailable
deriving DecidableEq

/-- The batch loop of `__main__` (check_kb_quality.py lines 220-224):
`for question in test_questions: all_results.append(check_question_with_metrics(question))`.
The loop body is not wrapped in any `try`/`except`, so an exception raised
while evaluating one question propagates and ends the loop; `ev` abstracts
`check_question_with_metrics`, whose judge calls can raise. -/
def runBatch (qs : List (List Char))
    (ev : List Char → Except JudgeError QuestionEvaluation) :
    Except JudgeError (List QuestionEvaluation) :=
  match qs with
  | [] => Except.ok []
  | q :: rest =>
      match ev q with
      | Except.error e => Except.error e
      | Except.ok r =>
          match runBatch rest ev with
          | Except.error e => Except.error e
          | Except.ok rs => Except.ok (r :: rs)

/-- C1: the overall score returned by the single-question evaluation is the
fixed-weight combination `0.25a + 0.35b + 0.20c + 0.20d` of the four metric
values, rounded to 3 decimal places; as a Lean function of `(a,b,c,d)` it is
by construction a deterministic pure function of those inputs. -/
theorem overall_score_weighted_formula (a b c d : ℚ) :
    overall_score a b c d = round3 (0.25 * a + 0.35 * b + 0.20 * c + 0.20 * d) := by
  unfold overall_score
  congr 1
  ring

lemma round3_zero : round3 0 = 0 := by
  simp [round3]

lemma round3_nonneg {q : ℚ} (h : 0 ≤ q) : 0 ≤ round3 q := by
  unfold round3
  have h1 : (0 : ℤ) ≤ round (q * 1000) := by
    rw [round_eq, Int.le_floor]
    push_cast
    linarith
  have h2 : (0 : ℚ) ≤ ((round (q * 1000) : ℤ) : ℚ) := by exact_mod_cast h1
  positivity

lemma round3_le_one {q : ℚ} (h : q ≤ 1) : round3 q ≤ 1 := by
  unfold round3
  have h1 : round (q * 1000) ≤ 1000 := by
    rw [round_eq, ← Int.lt_add_one_iff, Int.floor_lt]
    push_cast
    linarith
  rw [div_le_one (by norm_num)]
  exact_mod_cast h1

lemma relevancy_zero_of_count_zero {content : List Char} (docs : List (List Char))
    (h : relevantCount content = 0) :
    calculate_context_relevancy content docs = 0 := by
  unfold calculate_context_relevancy
  rw [h]
  split
  · rfl
  · push_cast
    rw [zero_div, min_eq_left zero_le_one, round3_zero]

lemma countRuns_eq_zero {l : List Char} (h : ∀ c ∈ l, c.isDigit = false) :
    ∀ b, countRuns b l = 0 := by
  induction l with
  | nil => intro b; rfl
  | cons c t ih =>
      intro b
      have hc := h c (List.mem_cons_self c t)
      simp only [countRuns, hc, if_false, Bool.false_eq_true]
      exact ih (fun d hd => h d (List.mem_cons_of_mem _ hd)) false

lemma mem_pyStrip_subset {c : Char} {l : List Char} (h : c ∈ pyStrip l) : c ∈ l := by
  unfold pyStrip at h
  rw [List.mem_reverse] at h
  have h1 := (List.dropWhile_sublist (l := (l.dropWhile isWS).reverse) (p := isWS)).subset h
  rw [List.mem_reverse] at h1
  exact (List.dropWhile_sublist (l := l) (p := isWS)).subset h1

/-- C4: the relevancy score is `min(relevant_count / total_sentence_count, 1)`
rounded to 3 decimals, where the total counts the non-empty (after strip)
dot-delimited segments of all retrieved texts; a zero total yields 0.0 by the
guard rather than a division fault, and the sentinel reply `"NONE"` gives
relevant count 0 and hence score 0.0 for any retrieved items. -/
theorem context_relevancy_formula :
    (∀ content docs, calculate_context_relevancy content docs =
        if totalSentences docs = 0 then 0
        else round3 (min ((relevantCount content : ℚ) / (totalSentences docs : ℚ)) 1)) ∧
    relevantCount "NONE".toList = 0 ∧
    (∀ docs, calculate_context_relevancy "NONE".toList docs = 0) := by
  refine ⟨fun content docs => rfl, by decide, fun docs => ?_⟩
  exact relevancy_zero_of_count_zero docs (by decide)

/-- C10: any judge reply without a decimal digit — whether or not it is the
exact sentinel `"NONE"` — yields relevant count 0, hence relevancy score 0.0,
whatever the retrieved items are. -/
theorem digit_free_reply_zero_score (content : List Char) (docs : List (List Char))
    (h : ∀ c ∈ content, c.isDigit = false) :
    calculate_context_relevancy content docs = 0 := by
  apply relevancy_zero_of_count_zero
  unfold relevantCount
  split
  · rfl
  · exact countRuns_eq_zero (fun d hd => h d (mem_pyStrip_subset hd)) false

/-- Witness for the digit-free-reply theorem at a concrete reply and items. -/
theorem digit_free_reply_zero_score_witness :
    calculate_context_relevancy "No relevant sentences found.".toList
      ["alpha. beta".toList, "gamma".toList] = 0 :=
  digit_free_reply_zero_score _ _ (by decide)

/-- C3 (evaluation at the failing input): a judge reply whose score label is
followed by a dots-only token makes `float()` raise `ValueError` — the
tolerant-default policy the spec states is broken there — while a reply with
no label-and-token match does fall back to the defaults 0.5 and 0.8. -/
theorem malformed_token_value_error :
    calculate_answer_completeness "COMPLETENESS_SCORE: .".toList
        = Except.error PyFault.valueError ∧
    calculate_faithfulness "FAITHFULNESS_SCORE: ..".toList
        = Except.error PyFault.valueError ∧
    calculate_answer_completeness "VERDICT: Complete".toList = Except.ok (1 / 2) ∧
    calculate_faithfulness "VERDICT: Complete".toList = Except.ok (4 / 5) := by
  refine ⟨by decide, by decide, ?_, ?_⟩
  · have h : reSearchScore "COMPLETENESS_SCORE:".toList "VERDICT: Complete".toList = none := by
      decide
    unfold calculate_answer_completeness
    rw [h]
    norm_num [round3, round_eq]
  · have h : reSearchScore "FAITHFULNESS_SCORE:".toList "VERDICT: Complete".toList = none := by
      decide
    unfold calculate_faithfulness
    rw [h]
    norm_num [round3, round_eq]

/-- C2 (counterexample): the faithfulness scorer also passes an out-of-range
judge value straight through — the reply `"FAITHFULNESS_SCORE: 2.5"` scores
2.5, which exceeds 1.0 — so completeness is not the only unclamped scorer. -/
theorem faithfulness_out_of_range :
    calculate_faithfulness "FAITHFULNESS_SCORE: 2.5".toList = Except.ok (5 / 2) ∧
    ¬((5 : ℚ) / 2 ≤ 1) := by
  refine ⟨?_, by norm_num⟩
  have h : reSearchScore "FAITHFULNESS_SCORE:".toList "FAITHFULNESS_SCORE: 2.5".toList
      = some "2.5".toList := by decide
  have h2 : digitsToNat "2".toList = 2 := by decide
  have h5 : digitsToNat "5".toList = 5 := by decide
  have htok : pyFloatOfToken "2.5".toList
      = some ((digitsToNat "2".toList : ℚ) + (digitsToNat "5".toList : ℚ) / (10 : ℚ) ^ 1) := by
    unfold pyFloatOfToken
    rw [if_pos (by decide)]
    rfl
  unfold calculate_faithfulness
  rw [h]
  dsimp only
  rw [htok]
  dsimp only
  rw [h2, h5]
  norm_num [round3, round_eq]

/-- C2 (amended): the context-relevancy score and the precision-at-k score
(for positive k) always lie in `[0, 1]` after rounding; the completeness and
faithfulness scorers are the ones that may pass through an out-of-range judge
value. -/
theorem relevancy_precision_unit_interval :
    (∀ content docs, 0 ≤ calculate_context_relevancy content docs ∧
        calculate_context_relevancy content docs ≤ 1) ∧
    (∀ docs judge k, 1 ≤ k →
        0 ≤ calculate_precision_at_k docs judge k ∧
        calculate_precision_at_k docs judge k ≤ 1) := by
  constructor
  · intro content docs
    unfold calculate_context_relevancy
    split
    · norm_num
    · constructor
      · exact round3_nonneg (le_min (by positivity) zero_le_one)
      · exact round3_le_one (min_le_right _ _)
  · intro docs judge k hk
    unfold calculate_precision_at_k
    have hk0 : (0 : ℚ) < (k : ℚ) := by exact_mod_cast Nat.lt_of_lt_of_le Nat.zero_lt_one hk
    have hcount : (((docs.take k).map (fun d => is_relevant (judge d))).countP id : ℚ)
        ≤ (k : ℚ) := by
      have h1 : ((docs.take k).map (fun d => is_relevant (judge d))).countP id ≤ k := by
        calc ((docs.take k).map (fun d => is_relevant (judge d))).countP id
            ≤ ((docs.take k).map (fun d => is_relevant (judge d))).length :=
              List.countP_le_length _
          _ = (docs.take k).length := List.length_map _ _
          _ ≤ k := List.length_take_le _ _
      exact_mod_cast h1
    constructor
    · exact round3_nonneg (by positivity)
    · exact round3_le_one ((div_le_one hk0).mpr hcount)

lemma hasInfix_iff (hay needle : List Char) :
    hasInfix hay needle = true ↔ needle <:+: hay := by
  induction hay with
  | nil => simp [hasInfix, List.isEmpty_iff]
  | cons c t ih =>
      simp [hasInfix, List.infix_cons_iff, ih, List.isPrefixOf_iff_prefix]

lemma pyStrip_decomp (m : List Char) :
    ∃ u v, m = u ++ pyStrip m ++ v ∧ (∀ c ∈ u, isWS c = true) ∧ (∀ c ∈ v, isWS c = true) := by
  refine ⟨m.takeWhile isWS, ((m.dropWhile isWS).reverse.takeWhile isWS).reverse, ?_, ?_, ?_⟩
  · unfold pyStrip
    conv_lhs => rw [← List.takeWhile_append_dropWhile (p := isWS) (l := m)]
    rw [List.append_assoc]
    congr 1
    conv_lhs => rw [← List.reverse_reverse (m.dropWhile isWS)]
    conv_lhs =>
      rw [← List.takeWhile_append_dropWhile (p := isWS) (l := (m.dropWhile isWS).reverse)]
    rw [List.reverse_append]
  · exact fun c hc => List.mem_takeWhile_imp hc
  · intro c hc
    rw [List.mem_reverse] at hc
    exact List.mem_takeWhile_imp hc

lemma toUpper_ws {c : Char} (h : isWS c = true) : c.toUpper = c := by
  unfold isWS at h
  simp only [Char.isWhitespace, Bool.or_eq_true, decide_eq_true_eq] at h
  rcases h with ((h | h) | h) | h <;> rw [h] <;> decide

lemma pyUpper_of_ws {u : List Char} (h : ∀ c ∈ u, isWS c = true) : pyUpper u = u := by
  unfold pyUpper
  rw [List.map_congr_left (fun c hc => toUpper_ws (h c hc))]
  exact List.map_id u

lemma infix_of_ws_append (needle : List Char) (hne : needle ≠ [])
    (hnws : ∀ c ∈ needle, isWS c = false) :
    ∀ u t, (∀ c ∈ u, isWS c = true) → needle <:+: u ++ t → needle <:+: t := by
  intro u
  induction u with
  | nil => intro t _ h; simpa using h
  | cons a u ih =>
      intro t hu h
      rw [List.cons_append] at h
      rcases List.infix_cons_iff.mp h with hpre | hinf
      · obtain ⟨c, cs, rfl⟩ : ∃ c cs, needle = c :: cs := by
          cases needle with
          | nil => exact absurd rfl hne
          | cons c cs => exact ⟨c, cs, rfl⟩
        obtain ⟨s, hs⟩ := hpre
        have hca : c = a := by
          have := congrArg (fun l => l.head?) hs
          simpa using this
        have h1 : isWS c = false := hnws c (List.mem_cons_self c cs)
        have h2 : isWS a = true := hu a (List.mem_cons_self a u)
        rw [hca, h2] at h1
        exact absurd h1 (by simp)
      · exact ih t (fun c hc => hu c (List.mem_cons_of_mem _ hc)) hinf

lemma infix_of_ws_wrap (needle u s v : List Char) (hne : needle ≠ [])
    (hnws : ∀ c ∈ needle, isWS c = false)
    (hu : ∀ c ∈ u, isWS c = true) (hv : ∀ c ∈ v, isWS c = true)
    (h : needle <:+: u ++ s ++ v) : needle <:+: s := by
  rw [List.append_assoc] at h
  have h1 : needle <:+: s ++ v := infix_of_ws_append needle hne hnws u (s ++ v) hu h
  have h2 : needle.reverse <:+: v.reverse ++ s.reverse := by
    rw [← List.reverse_append]
    exact List.reverse_infix.mpr h1
  have h3 : needle.reverse <:+: s.reverse :=
    infix_of_ws_append needle.reverse (by simpa using hne)
      (fun c hc => hnws c (List.mem_reverse.mp hc)) v.reverse s.reverse
      (fun c hc => hv c (List.mem_reverse.mp hc)) h2
  exact List.reverse_infix.mp h3

lemma infix_pyUpper_pyStrip_iff (needle m : List Char) (hne : needle ≠ [])
    (hnws : ∀ c ∈ needle, isWS c = false) :
    needle <:+: pyUpper (pyStrip m) ↔ needle <:+: pyUpper m := by
  obtain ⟨u, v, hm, hu, hv⟩ := pyStrip_decomp m
  have hu2 : u.map Char.toUpper = u := pyUpper_of_ws hu
  have hv2 : v.map Char.toUpper = v := pyUpper_of_ws hv
  have hsplit : pyUpper m = u ++ pyUpper (pyStrip m) ++ v := by
    conv_lhs => rw [hm]
    unfold pyUpper
    rw [List.map_append, List.map_append, hu2, hv2]
  constructor
  · intro h
    rw [hsplit]
    exact h.trans (List.infix_append _ _ _)
  · intro h
    rw [hsplit] at h
    exact infix_of_ws_wrap needle u (pyUpper (pyStrip m)) v hne hnws hu hv h

/-- C5: an item is classified relevant iff the uppercased judge response
contains the substring `"RELEVANT"` and does not contain `"NOT_RELEVANT"`
(the code also strips surrounding whitespace first, which cannot change
containment of these whitespace-free tokens); in particular the response
`"NOT_RELEVANT"` itself is classified not relevant, and `"RELEVANT"` is. -/
theorem precision_relevance_classification :
    (∀ resp, is_relevant resp = true ↔
        ("RELEVANT".toList <:+: pyUpper resp ∧
          ¬"NOT_RELEVANT".toList <:+: pyUpper resp)) ∧
    is_relevant "NOT_RELEVANT".toList = false ∧
    is_relevant "RELEVANT".toList = true := by
  refine ⟨fun resp => ?_, by decide, by decide⟩
  unfold is_relevant
  rw [Bool.and_eq_true, Bool.not_eq_true',
    hasInfix_iff (pyUpper (pyStrip resp)) "RELEVANT".toList,
    ← Bool.not_eq_true,
    hasInfix_iff (pyUpper (pyStrip resp)) "NOT_RELEVANT".toList,
    infix_pyUpper_pyStrip_iff "RELEVANT".toList resp (by decide) (by decide),
    infix_pyUpper_pyStrip_iff "NOT_RELEVANT".toList resp (by decide) (by decide)]

/-- C6: the precision-at-k scorer judges exactly the first `k` retrieved
items in their given order — its value only depends on `take k` of the
input — and divides the relevant count by the configured `k` itself; with
`k = 3` and a single retrieved item judged relevant the score is
`1/3` rounded to 3 decimals. -/
theorem precision_at_k_denominator :
    (∀ docs judge k, calculate_precision_at_k docs judge k =
        round3 ((((docs.take k).countP (fun d => is_relevant (judge d)) : ℕ) : ℚ) / (k : ℚ))) ∧
    (∀ docs docs2 judge k, docs.take k = docs2.take k →
        calculate_precision_at_k docs judge k = calculate_precision_at_k docs2 judge k) ∧
    calculate_precision_at_k ["some doc text".toList] (fun _ => "RELEVANT".toList) 3
      = round3 (1 / 3) := by
  refine ⟨fun docs judge k => ?_, fun docs docs2 judge k h => ?_, ?_⟩
  · unfold calculate_precision_at_k
    rw [List.countP_map]
    rfl
  · unfold calculate_precision_at_k
    rw [h]
  · unfold calculate_precision_at_k
    have h : ((["some doc text".toList].take 3).map
        (fun d => is_relevant ((fun _ => "RELEVANT".toList) d))).countP id = 1 := by decide
    rw [h]
    norm_num

/-- C7 (counterexample): summarizing an empty sequence of evaluations does
not fail with the named `EmptyBatch` error the spec requires — the code has
no such error and instead raises Python's bare `ZeroDivisionError` from the
first average. -/
theorem summary_empty_not_emptyBatch :
    generate_summary_report [] = Except.error BatchError.zeroDivisionError ∧
    generate_summary_report [] ≠ Except.error BatchError.emptyBatch := by
  have h : generate_summary_report [] = Except.error BatchError.zeroDivisionError := by
    unfold generate_summary_report
    rw [if_pos (by norm_num)]
  exact ⟨h, by rw [h]; intro hc; injection hc with hc2; exact absurd hc2 (by decide)⟩

/-- C7 (amended): summarizing an empty sequence fails — the division by zero
surfaces to the caller as a `ZeroDivisionError`, not silently and not as a
named `EmptyBatch` — and every non-empty sequence summarizes successfully. -/
theorem summary_empty_division_fault :
    generate_summary_report [] = Except.error BatchError.zeroDivisionError ∧
    (∀ l : List QuestionEvaluation, l ≠ [] →
        ∃ s, generate_summary_report l = Except.ok s) := by
  constructor
  · unfold generate_summary_report
    rw [if_pos (by norm_num)]
  · intro l h
    have h1 : l.length ≠ 0 := by simpa [List.length_eq_zero] using h
    have h0 : ((l.length : ℚ)) ≠ 0 := by exact_mod_cast h1
    exact ⟨_, if_neg h0⟩

/-- C8: for a non-empty batch of `N` evaluations, `worst_questions` has
length `min 3 N`, is ascending in `overall_score`, and is the first three of
a stable ascending arrangement: an ordering of the index-decorated input
that sorts by score and, on equal scores, by original input position. -/
theorem worst_questions_sorted_stable (l : List QuestionEvaluation) (_h : l ≠ []) :
    (worst_questions l).length = min 3 l.length ∧
    (worst_questions l).Pairwise (fun a b => a.overall_score ≤ b.overall_score) ∧
    ∃ s : List (ℕ × QuestionEvaluation), s.Perm l.enum ∧ s.Pairwise scoreIdxLe ∧
      worst_questions l = (s.map Prod.snd).take 3 := by
  refine ⟨?_, ?_, (l.enum).insertionSort scoreIdxLe, List.perm_insertionSort _ _, ?_, rfl⟩
  · unfold worst_questions sortByOverall
    rw [List.length_take, List.length_map, List.length_insertionSort, List.enum_length]
  · unfold worst_questions sortByOverall
    apply List.Pairwise.sublist (List.take_sublist _ _)
    rw [List.pairwise_map]
    have hs : List.Pairwise scoreIdxLe ((l.enum).insertionSort scoreIdxLe) :=
      List.sorted_insertionSort scoreIdxLe l.enum
    exact hs.imp (fun hab => by
      rcases hab with hab | ⟨hab, _⟩
      · exact le_of_lt hab
      · exact le_of_eq hab)
  · exact List.sorted_insertionSort scoreIdxLe l.enum

/-- Two evaluations with tied overall scores, for the concrete witness. -/
def qe1 : QuestionEvaluation :=
  { question := "first q".toList, context_relevancy := 1/2, answer_completeness := 1/2,
    faithfulness := 1/2, precision_at_3 := 1/2, overall_score := 1/2 }

/-- Second tied evaluation for the concrete witness. -/
def qe2 : QuestionEvaluation :=
  { question := "second q".toList, context_relevancy := 1, answer_completeness := 1,
    faithfulness := 1, precision_at_3 := 1, overall_score := 1/2 }

/-- Witness for the worst-questions theorem at a concrete tied batch. -/
theorem worst_questions_sorted_stable_witness :
    (worst_questions [qe1, qe2]).length = min 3 ([qe1, qe2] : List QuestionEvaluation).length ∧
    (worst_questions [qe1, qe2]).Pairwise (fun a b => a.overall_score ≤ b.overall_score) ∧
    ∃ s : List (ℕ × QuestionEvaluation), s.Perm ([qe1, qe2] : List QuestionEvaluation).enum ∧
      s.Pairwise scoreIdxLe ∧
      worst_questions [qe1, qe2] = (s.map Prod.snd).take 3 :=
  worst_questions_sorted_stable [qe1, qe2] (by simp)

/-- A successful evaluation record for the batch-abort scenarios. -/
def qeOk : QuestionEvaluation :=
  { question := "q2".toList, context_relevancy := 1, answer_completeness := 1,
    faithfulness := 1, precision_at_3 := 1, overall_score := 1 }

/-- A concrete `check_question_with_metrics` stand-in whose judge is
unavailable exactly for the question `"q1"`. -/
def evalStub (q : List Char) : Except JudgeError QuestionEvaluation :=
  if q = "q1".toList then Except.error JudgeError.judgeUnavailable else Except.ok qeOk

/-- C9 (counterexample): with two questions where the judge is unavailable
for the first, the batch loop does not continue and summarize the surviving
question — the whole run aborts with the propagated fault. -/
theorem batch_abort_cex :
    runBatch ["q1".toList, "q2".toList] evalStub
        = Except.error JudgeError.judgeUnavailable ∧
    runBatch ["q1".toList, "q2".toList] evalStub ≠ Except.ok [qeOk] := by
  have h : runBatch ["q1".toList, "q2".toList] evalStub
      = Except.error JudgeError.judgeUnavailable := by
    have h1 : evalStub "q1".toList = Except.error JudgeError.judgeUnavailable := by decide
    unfold runBatch
    rw [h1]
  exact ⟨h, by rw [h]; intro hc; exact Except.noConfusion hc⟩

/-- C9 (amended): an unhandled judge-unavailable fault while evaluating one
question aborts the entire batch run — whatever questions remain are never
evaluated and no summary is produced — because the `__main__` loop has no
exception handling. -/
theorem batch_aborts_on_judge_error (qs1 qs2 : List (List Char)) (q : List Char)
    (ev : List Char → Except JudgeError QuestionEvaluation)
    (h1 : ∀ p ∈ qs1, ∃ r, ev p = Except.ok r)
    (h2 : ev q = Except.error JudgeError.judgeUnavailable) :
    runBatch (qs1 ++ q :: qs2) ev = Except.error JudgeError.judgeUnavailable := by
  induction qs1 with
  | nil =>
      rw [List.nil_append]
      unfold runBatch
      rw [h2]
  | cons a t ih =>
      obtain ⟨r, hr⟩ := h1 a (List.mem_cons_self a t)
      have ht := ih (fun p hp => h1 p (List.mem_cons_of_mem _ hp))
      rw [List.cons_append]
      unfold runBatch
      rw [hr, ht]

/-- Witness for the batch-abort theorem: one question succeeds, then the
judge is unavailable for the next, and the run ends with the fault. -/
theorem batch_aborts_on_judge_error_witness :
    runBatch (["q2".toList] ++ "q1".toList :: []) evalStub
      = Except.error JudgeError.judgeUnavailable :=
  batch_aborts_on_judge_error ["q2".toList] [] "q1".toList evalStub
    (by
      intro p hp
      rw [List.mem_singleton] at hp
      exact ⟨qeOk, by rw [hp]; decide⟩)
    (by decide)

end KBQC
